import Mathlib

/-!
Verification of the NWN2 save-reminder core (src/main.go, the config-driven
version of the program: the second `package main` block in the merged file).

The embedding models:
  * the configuration record and the duration fallbacks applied by
    `handleQuicksaveChange` / `startAlarmTimer` / `startRepeatAlarm`
    (`time.ParseDuration` with a hard-coded default on error);
  * the `SaveReminder` mutable state: `lastSaveTime`, the one-shot alarm
    timer, the repeating ticker, `alarmActive`, and the debounce timer.
    A live timer is an `Option Nat` holding its scheduled fire time;
    `none` means the handle is nil, stopped, or already fired (Go keeps a
    dangling handle to a fired timer, but `Stop` on it is a no-op, so the
    behaviour is the same).  The ghost field `orphans` counts timers that
    were overwritten while still live without `Stop` being called — the
    translation of each assignment increments it exactly when the Go code
    assigns over a handle it did not stop first — so the at-most-one-timer
    invariant really checks the source's Stop discipline;
  * the event handlers `handleQuicksaveChange`, `processQuicksave`,
    `resetAlarmTimers`, `startAlarmTimer`, `startRepeatAlarm` as pure state
    transformers, with filesystem answers (stat results, backup outcome)
    passed in as oracle arguments;
  * the path predicates `isQuicksaveRelated` (current filter) and
    `isQuicksaveFile` (the earlier base-name filter), over paths modelled
    as lists of components, with `filepath.Rel` modelled for cleaned paths;
  * `copyDirectory` / `copyFile` over a filesystem tree, under successful
    I/O (the claims about copying condition on a successful backup);
  * `playAlarmSound` returning which sink action runs (silent / beep /
    play file) and whether the not-found warning is logged;
  * a small-step relation `Step` over the state, one constructor per
    callback, each callback running atomically (the serialized-callback
    model mandated by the specification's concurrency section).

Times and durations are naturals (nanoseconds, as in Go's time package).
-/

namespace NWN2

/-- Constant `quicksaveName` from main.go. -/
def quicksaveName : String := "000000 - quicksave"

/-- Constant `backupFolderName` from main.go. -/
def backupFolderName : String := "backups"

/-- Nanoseconds per second, Go's base duration unit. -/
def nsPerSecond : Nat := 1000000000

/-- Fallback used by `startAlarmTimer` when `alarm_interval` fails to parse: 5m. -/
def defaultAlarmInterval : Nat := 5 * 60 * nsPerSecond

/-- Fallback used by `handleQuicksaveChange` when `debounce_delay` fails to parse: 3s. -/
def defaultDebounceDelay : Nat := 3 * nsPerSecond

/-- Fallback used by `startRepeatAlarm` when `repeat_interval` fails to parse: 5m. -/
def defaultRepeatInterval : Nat := 5 * 60 * nsPerSecond

/-- The `Config` struct.  The duration fields carry the result of
`time.ParseDuration` on the configured string: `some d` when the string
parses to duration `d`, `none` when parsing fails (the handlers then fall
back to their defaults). -/
structure Config where
  alarmInterval : Option Nat
  debounceDelay : Option Nat
  repeatInterval : Option Nat
  alarmSoundFile : String
  alarmVolume : Int
  verboseLogging : Bool
deriving DecidableEq

/-- Duration actually used by `startAlarmTimer`: parsed value or the 5m fallback. -/
def effAlarmInterval (cfg : Config) : Nat := cfg.alarmInterval.getD defaultAlarmInterval

/-- Duration actually used by `handleQuicksaveChange`: parsed value or the 3s fallback. -/
def effDebounceDelay (cfg : Config) : Nat := cfg.debounceDelay.getD defaultDebounceDelay

/-- Duration actually used by `startRepeatAlarm`: parsed value or the 5m fallback. -/
def effRepeatInterval (cfg : Config) : Nat := cfg.repeatInterval.getD defaultRepeatInterval

/-- The mutable fields of the `SaveReminder` struct (watcher handle and config
are elsewhere: the watcher is not part of the timer state, the config is
immutable).  Timer fields hold the scheduled fire time of a live timer.
`orphans` is a ghost counter of timers leaked by assigning over a live,
unstopped handle; the Go code never does this, which is part of what the
timer invariant verifies. -/
structure SaveReminder where
  lastSaveTime : Nat
  alarmTimer : Option Nat
  repeatTimer : Option Nat
  alarmActive : Bool
  debounceTimer : Option Nat
  orphans : Nat
deriving DecidableEq

/-- The zero-value `SaveReminder` built in `main` (all timer handles nil). -/
def SaveReminder.init : SaveReminder :=
  { lastSaveTime := 0
    alarmTimer := none
    repeatTimer := none
    alarmActive := false
    debounceTimer := none
    orphans := 0 }

/-- Assigning a fresh timer into a slot: `time.AfterFunc` / `time.NewTicker`
followed by a field assignment.  If the slot still held a live timer, that
timer keeps running with no handle left to stop it — it becomes an orphan. -/
def armOver (slot : Option Nat) (fireAt : Nat) (orphans : Nat) : Option Nat × Nat :=
  (some fireAt, orphans + (if slot.isSome then 1 else 0))

/-- `resetAlarmTimers`: stop and clear the one-shot timer and the ticker,
clear `alarmActive`.  Both handles are stopped before being dropped, so no
orphan is created. -/
def resetAlarmTimers (sr : SaveReminder) : SaveReminder :=
  { sr with alarmTimer := none, repeatTimer := none, alarmActive := false }

/-- `startAlarmTimer`: parse `alarm_interval` (5m fallback) and assign a new
one-shot timer into `sr.alarmTimer`.  The code does not stop a previous
handle here, so a live one would be orphaned. -/
def startAlarmTimer (cfg : Config) (now : Nat) (sr : SaveReminder) : SaveReminder :=
  let armed := armOver sr.alarmTimer (now + effAlarmInterval cfg) sr.orphans
  { sr with alarmTimer := armed.1, orphans := armed.2 }

/-- `startRepeatAlarm`: set `alarmActive`, parse `repeat_interval` (5m
fallback) and assign a new ticker into `sr.repeatTimer`.  The code does not
stop a previous ticker here, so a live one would be orphaned. -/
def startRepeatAlarm (cfg : Config) (now : Nat) (sr : SaveReminder) : SaveReminder :=
  let armed := armOver sr.repeatTimer (now + effRepeatInterval cfg) sr.orphans
  { sr with alarmActive := true, repeatTimer := armed.1, orphans := armed.2 }

/-- Outcome of `processQuicksave`: returned early because the folder vanished
(a log line, not an error path), returned early because `createBackup`
failed (logged as an error), or ran to completion (a confirmed save). -/
inductive ProcessOutcome where
  | skipped
  | backupFailed
  | confirmed
deriving DecidableEq

/-- `processQuicksave` run at time `now`.  `statOk` is the oracle answer of
`os.Stat` on the quicksave folder (false = the folder no longer exists);
`backupResult` is the outcome of `createBackup` under possible I/O failure.
On the success path the code resets the alarm timers, sets `lastSaveTime`,
and starts a fresh one-shot alarm timer, in that order. -/
def processQuicksave (cfg : Config) (now : Nat) (statOk : Bool)
    (backupResult : Except String Unit) (sr : SaveReminder) :
    SaveReminder × ProcessOutcome :=
  if !statOk then
    (sr, .skipped)
  else
    match backupResult with
    | .error _ => (sr, .backupFailed)
    | .ok _ =>
        let sr1 := resetAlarmTimers sr
        let sr2 := { sr1 with lastSaveTime := now }
        (startAlarmTimer cfg now sr2, .confirmed)

/-- The `fsnotify.Op` bitmask carried by an event. -/
structure FsOp where
  create : Bool
  write : Bool
  remove : Bool
  rename : Bool
  chmod : Bool
deriving DecidableEq

/-- An fsnotify event: the path it names and its operation bits. -/
structure RawEvent where
  path : List String
  op : FsOp
deriving DecidableEq

/-- `handleQuicksaveChange` run at time `now`.  `statIsDir` is the oracle
answer of `os.Stat` on the event path: `some true` = exists and is a
directory (structural event: possibly re-add the watcher, no state change),
`some false` = exists and is a file, `none` = stat failed.  For a
write/create event on a non-directory the code stops any pending debounce
timer and starts a fresh one for the debounce delay. -/
def handleQuicksaveChange (cfg : Config) (now : Nat) (statIsDir : Option Bool)
    (ev : RawEvent) (sr : SaveReminder) : SaveReminder :=
  match statIsDir with
  | some true => sr
  | _ =>
      if ev.op.write || ev.op.create then
        let stopped := { sr with debounceTimer := none }
        let armed := armOver stopped.debounceTimer (now + effDebounceDelay cfg) stopped.orphans
        { stopped with debounceTimer := armed.1, orphans := armed.2 }
      else
        sr

/-- The spec's `AlarmState`, read off the timer fields: a live ticker means
Repeating, otherwise a live one-shot means Armed, otherwise Idle. -/
inductive AlarmState where
  | Idle
  | Armed
  | Repeating
deriving DecidableEq

/-- Map the concrete timer state to the spec's `AlarmState`. -/
def alarmState (sr : SaveReminder) : AlarmState :=
  if sr.repeatTimer.isSome then .Repeating
  else if sr.alarmTimer.isSome then .Armed
  else .Idle

/-- Length of the common leading run of equal components of two paths. -/
def commonRunLen : List String → List String → Nat
  | a :: as, b :: bs => if a = b then commonRunLen as bs + 1 else 0
  | _, _ => 0

/-- `filepath.Rel base p` for cleaned paths given as component lists: strip
the common leading components, climb out of what is left of `base` with
".." entries, then descend into the rest of `p`; the empty result is ".". -/
def goRel (base p : List String) : List String :=
  let k := commonRunLen base p
  let r := List.replicate (base.length - k) ".." ++ p.drop k
  if r = [] then ["."] else r

/-- `isQuicksaveRelated` (the event filter used by `processEvents`): compute
the path relative to `savesPath`, split it into components, and accept
exactly when the first component equals `quicksaveName`. -/
def isQuicksaveRelated (savesPath filePath : List String) : Bool :=
  match (goRel savesPath filePath).head? with
  | some s => s == quicksaveName
  | none => false

/-- `filepath.Base` on a component list: the last component, "." when empty. -/
def baseName (p : List String) : String := p.getLastD "."

/-- `strings.HasPrefix s pre` over the characters of the two strings. -/
def strStartsWith (s pre : String) : Bool := List.isPrefixOf pre.data s.data

/-- `isQuicksaveFile` (the event filter of the earlier, single-file version
of the program): accept when the base name starts with `quicksaveName`. -/
def isQuicksaveFile (filePath : List String) : Bool :=
  strStartsWith (baseName filePath) quicksaveName

mutual
/-- A filesystem tree: a file with its bytes, or a directory with a list of
named entries. -/
inductive FsEntry where
  | file (data : List Nat)
  | dir (entries : FsEntries)
deriving DecidableEq

inductive FsEntries where
  | nil
  | cons (name : String) (entry : FsEntry) (rest : FsEntries)
deriving DecidableEq
end

/-- `copyFile` under successful I/O: read the full source contents, write
them verbatim to the destination; the written bytes are returned. -/
def copyFile (data : List Nat) : Except String (List Nat) := .ok data

mutual
/-- `copyDirectory` under successful I/O: stat the source, create the
destination directory, read the source directory, and copy each entry —
recursing into subdirectories, copying files byte for byte.  `ReadDir` on a
non-directory source fails.  The value returned is the tree written at the
destination. -/
def copyDirectory : FsEntry → Except String FsEntry
  | .file _ => .error "error reading source directory"
  | .dir entries => (copyEntries entries).map FsEntry.dir

/-- The entry loop of `copyDirectory`: copy each named entry in order,
aborting on the first error. -/
def copyEntries : FsEntries → Except String FsEntries
  | .nil => .ok .nil
  | .cons n e rest =>
      match e with
      | .dir es =>
          (copyDirectory (.dir es)).bind fun e2 =>
            (copyEntries rest).map fun r => .cons n e2 r
      | .file data =>
          (copyFile data).bind fun d2 =>
            (copyEntries rest).map fun r => .cons n (.file d2) r
end

/-- Which alarm sink action `playAlarmSound` performs. -/
inductive SinkAction where
  | silent
  | beep
  | playFile (path : String)
deriving DecidableEq

/-- `playAlarmSound`: volume 0 is muted (return at once, no sink call); with
a configured sound file that resolves, play it; with one that does not
resolve, log the not-found warning and fall through to the beep section;
the beep is skipped silently when the volume is below 10.  `resolvedSound`
is the oracle answer of `resolveSoundPath` (`none` = empty result, file not
found).  Returns the sink action and whether the not-found warning was
logged. -/
def playAlarmSound (cfg : Config) (resolvedSound : Option String) :
    SinkAction × Bool :=
  if cfg.alarmVolume = 0 then
    (.silent, false)
  else if cfg.alarmSoundFile ≠ "" then
    match resolvedSound with
    | some p => (.playFile p, false)
    | none =>
        if cfg.alarmVolume < 10 then (.silent, true) else (.beep, true)
  else
    if cfg.alarmVolume < 10 then (.silent, false) else (.beep, false)

/-- Timed semantics of the debounce timer (`handleQuicksaveChange` plus
`time.AfterFunc`): given the pending fire time and the times of the
qualifying events in order, a pending timer whose fire time has arrived
before the next event fires (emitting a save candidate at that time), and
each event stops the pending timer and schedules a new one at its own time
plus the debounce delay.  Returns the times at which candidates fire. -/
def debounceFires (cfg : Config) : Option Nat → List Nat → List Nat
  | some f, [] => [f]
  | none, [] => []
  | some f, t :: ts =>
      if f ≤ t then f :: debounceFires cfg (some (t + effDebounceDelay cfg)) ts
      else debounceFires cfg (some (t + effDebounceDelay cfg)) ts
  | none, t :: ts => debounceFires cfg (some (t + effDebounceDelay cfg)) ts

/-- One atomic callback of the program, as a step relation on the state.
Each constructor is one of the concurrent units of work, run under the
serialized-callback model: the event-loop handler for a raw event, the
debounce timer firing (running `processQuicksave` with oracle answers for
the stat and the backup), the one-shot alarm firing (its callback runs
`triggerAlarm` then `startRepeatAlarm`; the fired one-shot is spent), a
ticker tick (`triggerAlarm`; the ticker stays live for the next tick), and
`cleanup` stopping everything. -/
inductive Step (cfg : Config) : SaveReminder → SaveReminder → Prop where
  | raw (sr : SaveReminder) (now : Nat) (statIsDir : Option Bool) (ev : RawEvent) :
      Step cfg sr (handleQuicksaveChange cfg now statIsDir ev sr)
  | debounceFire (sr : SaveReminder) (t : Nat) (statOk : Bool)
      (backupResult : Except String Unit) (h : sr.debounceTimer = some t) :
      Step cfg sr
        (processQuicksave cfg t statOk backupResult { sr with debounceTimer := none }).1
  | alarmFire (sr : SaveReminder) (t : Nat) (h : sr.alarmTimer = some t) :
      Step cfg sr (startRepeatAlarm cfg t { sr with alarmTimer := none })
  | tickFire (sr : SaveReminder) (t : Nat) (h : sr.repeatTimer = some t) :
      Step cfg sr { sr with repeatTimer := some (t + effRepeatInterval cfg) }
  | shutdown (sr : SaveReminder) :
      Step cfg sr (resetAlarmTimers sr)

/-- States reachable from the freshly constructed `SaveReminder`. -/
def Reachable (cfg : Config) (sr : SaveReminder) : Prop :=
  Relation.ReflTransGen (Step cfg) SaveReminder.init sr

/-- Number of live alarm-side timers: the one-shot, the ticker, and any
orphaned ones. -/
def liveAlarmTimerCount (sr : SaveReminder) : Nat :=
  (if sr.alarmTimer.isSome then 1 else 0) +
    (if sr.repeatTimer.isSome then 1 else 0) + sr.orphans

/-- Number of live debounce timers (the debounce slot; the code never
orphans a debounce timer, which `orphans = 0` in the invariant checks). -/
def liveDebounceCount (sr : SaveReminder) : Nat :=
  if sr.debounceTimer.isSome then 1 else 0

/-- The inductive timer invariant: no orphaned timer, and the one-shot and
the ticker are never both live. -/
def TimerInv (sr : SaveReminder) : Prop :=
  sr.orphans = 0 ∧ (sr.alarmTimer = none ∨ sr.repeatTimer = none)

/-- A concrete configuration with volume 0 (muted), used as sample input. -/
def mutedConfig : Config :=
  { alarmInterval := some 10
    debounceDelay := some 3
    repeatInterval := some 7
    alarmSoundFile := ""
    alarmVolume := 0
    verboseLogging := false }

/-- A concrete configuration with a low nonzero volume and no sound file. -/
def lowVolumeConfig : Config := { mutedConfig with alarmVolume := 5 }

/-- A concrete configuration with full volume. -/
def fullVolumeConfig : Config := { mutedConfig with alarmVolume := 100 }

/-- The common leading run of a path with an extension of itself is the
whole path. -/
theorem commonRunLen_append (base r : List String) :
    commonRunLen base (base ++ r) = base.length := by
  induction base with
  | nil => simp [commonRunLen]
  | cons a as ih => simp [commonRunLen, ih]

/-- Relative path of a proper extension of the base: just the extra
components. -/
theorem goRel_append (base : List String) (a : String) (rest : List String) :
    goRel base (base ++ a :: rest) = a :: rest := by
  simp [goRel, commonRunLen_append]

/-- On any path below the watched directory, `isQuicksaveRelated` tests the
first extra component against `quicksaveName`. -/
theorem isQuicksaveRelated_append (saves : List String) (a : String) (rest : List String) :
    isQuicksaveRelated saves (saves ++ a :: rest) = (a == quicksaveName) := by
  simp [isQuicksaveRelated, goRel_append]

/-- The copy loop reproduces its input under successful I/O. -/
theorem copyEntries_id : ∀ es : FsEntries, copyEntries es = Except.ok es
  | .nil => rfl
  | .cons n (.file d) rest => by
      simp [copyEntries, copyFile, copyEntries_id rest, Except.bind, Except.map]
  | .cons n (.dir es2) rest => by
      simp [copyEntries, copyDirectory, copyEntries_id es2, copyEntries_id rest,
        Except.bind, Except.map]

/-- With a pending debounce timer and every further event arriving before it
fires, the timer keeps being pushed back and fires once, after the last
event. -/
theorem debounceFires_pending (cfg : Config) :
    ∀ (ts : List Nat) (t : Nat),
      List.Chain (fun a b => b < a + effDebounceDelay cfg) t ts →
      debounceFires cfg (some (t + effDebounceDelay cfg)) ts
        = [ts.getLastD t + effDebounceDelay cfg]
  | [], t, _ => by simp [debounceFires]
  | t2 :: ts, t, h => by
      rw [List.chain_cons] at h
      have ih := debounceFires_pending cfg ts t2 h.2
      rw [List.getLastD_cons]
      simp [debounceFires, Nat.not_le.mpr h.1, ih]

/-- `handleQuicksaveChange` never touches the alarm timer, the ticker, or
the orphan count. -/
theorem handleQuicksaveChange_alarm_fields (cfg : Config) (now : Nat)
    (statIsDir : Option Bool) (ev : RawEvent) (sr : SaveReminder) :
    (handleQuicksaveChange cfg now statIsDir ev sr).alarmTimer = sr.alarmTimer ∧
    (handleQuicksaveChange cfg now statIsDir ev sr).repeatTimer = sr.repeatTimer ∧
    (handleQuicksaveChange cfg now statIsDir ev sr).orphans = sr.orphans := by
  unfold handleQuicksaveChange
  cases statIsDir with
  | none => cases hc : (ev.op.write || ev.op.create) <;> simp [hc, armOver]
  | some b =>
      cases b with
      | false => cases hc : (ev.op.write || ev.op.create) <;> simp [hc, armOver]
      | true => simp

/-- `processQuicksave` preserves the timer invariant. -/
theorem processQuicksave_TimerInv (cfg : Config) (now : Nat) (statOk : Bool)
    (bres : Except String Unit) {sr : SaveReminder} (hinv : TimerInv sr) :
    TimerInv (processQuicksave cfg now statOk bres sr).1 := by
  obtain ⟨horp, hx⟩ := hinv
  unfold processQuicksave
  cases statOk with
  | false => exact ⟨horp, hx⟩
  | true =>
      cases bres with
      | error e => exact ⟨horp, hx⟩
      | ok u => simp [TimerInv, resetAlarmTimers, startAlarmTimer, armOver, horp]

/-- Every atomic callback preserves the timer invariant. -/
theorem step_preserves_TimerInv {cfg : Config} {sr sr2 : SaveReminder}
    (hinv : TimerInv sr) (hstep : Step cfg sr sr2) : TimerInv sr2 := by
  obtain ⟨horp, hx⟩ := hinv
  cases hstep with
  | raw now statIsDir ev =>
      obtain ⟨h1, h2, h3⟩ := handleQuicksaveChange_alarm_fields cfg now statIsDir ev sr
      exact ⟨h3.trans horp, by rw [h1, h2]; exact hx⟩
  | debounceFire t statOk bres h =>
      exact processQuicksave_TimerInv cfg t statOk bres ⟨horp, hx⟩
  | alarmFire t h =>
      rcases hx with hx | hx
      · rw [h] at hx; cases hx
      · constructor
        · simp [startRepeatAlarm, armOver, hx, horp]
        · exact Or.inl (by simp [startRepeatAlarm, armOver])
  | tickFire t h =>
      rcases hx with hx | hx
      · exact ⟨horp, Or.inl hx⟩
      · rw [h] at hx; cases hx
  | shutdown => exact ⟨horp, Or.inl rfl⟩

/-- Every reachable state satisfies the timer invariant. -/
theorem reachable_TimerInv {cfg : Config} {sr : SaveReminder}
    (h : Reachable cfg sr) : TimerInv sr := by
  induction h with
  | refl => exact ⟨rfl, Or.inl rfl⟩
  | tail hab hbc ih => exact step_preserves_TimerInv ih hbc

/-- C1: from any prior state, a confirmed save (`processQuicksave` with the
folder present and a successful backup) at time `now` stops the one-shot
timer and the ticker without leaking either, records `now` as the last save
time, leaves the scheduler Armed, and schedules the next alarm firing at
exactly `now + alarmInterval`. -/
theorem confirmSave_arms_alarm (cfg : Config) (now : Nat) (sr : SaveReminder) :
    processQuicksave cfg now true (Except.ok ()) sr =
      ({ sr with
          lastSaveTime := now
          alarmTimer := some (now + effAlarmInterval cfg)
          repeatTimer := none
          alarmActive := false }, .confirmed) ∧
    alarmState (processQuicksave cfg now true (Except.ok ()) sr).1 = .Armed := by
  constructor
  · simp [processQuicksave, resetAlarmTimers, startAlarmTimer, armOver]
  · simp [processQuicksave, resetAlarmTimers, startAlarmTimer, armOver, alarmState]

/-- C2: in every reachable state of the serialized state machine there is at
most one live debounce timer and at most one live alarm-side timer (one-shot
or ticker, never both, and no leaked timer), and whenever `processQuicksave`
confirms a save the resulting state is Armed with no live ticker. -/
theorem timer_exclusivity_invariant (cfg : Config) (sr : SaveReminder)
    (h : Reachable cfg sr) :
    (liveDebounceCount sr ≤ 1 ∧ liveAlarmTimerCount sr ≤ 1) ∧
    ∀ (now : Nat) (statOk : Bool) (bres : Except String Unit) (sr0 : SaveReminder),
      (processQuicksave cfg now statOk bres sr0).2 = .confirmed →
      alarmState (processQuicksave cfg now statOk bres sr0).1 = .Armed ∧
      (processQuicksave cfg now statOk bres sr0).1.repeatTimer = none := by
  obtain ⟨horp, hx⟩ := reachable_TimerInv h
  constructor
  · constructor
    · unfold liveDebounceCount
      split <;> omega
    · unfold liveAlarmTimerCount
      rcases hx with hx | hx <;> simp [hx, horp] <;> split <;> omega
  · intro now statOk bres sr0 hconf
    cases statOk with
    | false => simp [processQuicksave] at hconf
    | true =>
        cases bres with
        | error e => simp [processQuicksave] at hconf
        | ok u =>
            constructor
            · simp [processQuicksave, resetAlarmTimers, startAlarmTimer, armOver, alarmState]
            · simp [processQuicksave, resetAlarmTimers, startAlarmTimer, armOver]

/-- C2 witness: the invariant and the confirm conclusion, instantiated at
the initial state and a concrete confirmed save. -/
theorem timer_exclusivity_invariant_witness :
    Reachable mutedConfig SaveReminder.init ∧
    (liveDebounceCount SaveReminder.init ≤ 1 ∧
      liveAlarmTimerCount SaveReminder.init ≤ 1) ∧
    alarmState
        (processQuicksave mutedConfig 4 true (Except.ok ()) SaveReminder.init).1 = .Armed :=
  ⟨Relation.ReflTransGen.refl,
   (timer_exclusivity_invariant mutedConfig SaveReminder.init Relation.ReflTransGen.refl).1,
   ((timer_exclusivity_invariant mutedConfig SaveReminder.init Relation.ReflTransGen.refl).2
       4 true (Except.ok ()) SaveReminder.init (by decide)).1⟩

/-- C3: for a nonempty run of qualifying events whose successive gaps are
strictly below the debounce delay, the debouncer fires exactly once, at the
time of the last event plus the debounce delay. -/
theorem debounce_single_candidate (cfg : Config) (t : Nat) (ts : List Nat)
    (h : List.Chain (fun a b => b < a + effDebounceDelay cfg) t ts) :
    debounceFires cfg none (t :: ts) = [ts.getLastD t + effDebounceDelay cfg] := by
  have := debounceFires_pending cfg ts t h
  simpa [debounceFires] using this

/-- C3 witness: three events at 0, 1, 2 with a 3ns debounce delay produce
one candidate, fired at 2 + 3 = 5. -/
theorem debounce_single_candidate_witness :
    List.Chain (fun a b => b < a + effDebounceDelay mutedConfig) 0 [1, 2] ∧
    debounceFires mutedConfig none [0, 1, 2]
      = [[1, 2].getLastD 0 + effDebounceDelay mutedConfig] :=
  ⟨.cons (by decide) (.cons (by decide) .nil),
   debounce_single_candidate mutedConfig 0 [1, 2]
     (.cons (by decide) (.cons (by decide) .nil))⟩

/-- C4: when `createBackup` fails, `processQuicksave` returns with the state
exactly as it was — no timer, ticker, or `lastSaveTime` change — and the
outcome is the logged backup error, not a confirmed save. -/
theorem failed_backup_preserves_state (cfg : Config) (now : Nat) (msg : String)
    (sr : SaveReminder) :
    processQuicksave cfg now true (Except.error msg) sr = (sr, .backupFailed) := by
  simp [processQuicksave]

/-- C5: under successful I/O, `copyDirectory` on a directory of any number
of files and subdirectories returns the identical tree (same names, same
structure, byte-identical files); on the empty directory it succeeds with
an empty destination. -/
theorem copyDirectory_identical (es : FsEntries) :
    copyDirectory (.dir es) = Except.ok (.dir es) := by
  simp [copyDirectory, copyEntries_id, Except.map]

/-- C6: when the watch target no longer exists at debounce-fire time,
`processQuicksave` returns the state untouched with the silently-skipped
outcome: no backup, no alarm reset, and not the error path. -/
theorem missing_target_dropped (cfg : Config) (now : Nat)
    (bres : Except String Unit) (sr : SaveReminder) :
    processQuicksave cfg now false bres sr = (sr, .skipped) := by
  simp [processQuicksave]

/-- C7 counterexample: a sibling entry whose base name carries the entity
name as a proper prefix — `"000000 - quicksave copy"` — is accepted by the
base-name predicate `isQuicksaveFile` but rejected by the event filter
`isQuicksaveRelated` actually used by `processEvents`, so the filter is not
the claimed base-name prefix match. -/
theorem quicksave_filter_base_name_cex :
    isQuicksaveFile
        ["home", "user", "Documents", "Neverwinter Nights 2", "saves", "multiplayer",
          "000000 - quicksave copy"] = true ∧
    isQuicksaveRelated
        ["home", "user", "Documents", "Neverwinter Nights 2", "saves", "multiplayer"]
        ["home", "user", "Documents", "Neverwinter Nights 2", "saves", "multiplayer",
          "000000 - quicksave copy"] = false := by
  constructor
  · decide
  · decide

/-- C7 amended: the event filter accepts a path below the watched saves
directory exactly when its first component relative to that directory is
the entity name `"000000 - quicksave"` itself — files inside the quicksave
folder are accepted, while sibling entries whose names merely extend the
entity name are rejected. -/
theorem quicksave_filter_first_component (saves : List String) (a : String)
    (rest : List String) :
    isQuicksaveRelated saves (saves ++ a :: rest) = (a == quicksaveName) :=
  isQuicksaveRelated_append saves a rest

/-- C8: with `alarmVolume = 0` the alarm sink is never invoked (no beep, no
file playback, no warning), while the timer transitions are computed from
the duration fields only, so the Armed-to-Repeating transition and the
repeat schedule are identical to those of any other volume. -/
theorem muted_volume_skips_sink (cfg : Config) (resolvedSound : Option String)
    (sr : SaveReminder) (t : Nat) (v : Int) (h : cfg.alarmVolume = 0) :
    playAlarmSound cfg resolvedSound = (.silent, false) ∧
    startRepeatAlarm cfg t sr = startRepeatAlarm { cfg with alarmVolume := v } t sr ∧
    effAlarmInterval cfg = effAlarmInterval { cfg with alarmVolume := v } ∧
    effRepeatInterval cfg = effRepeatInterval { cfg with alarmVolume := v } := by
  refine ⟨?_, rfl, rfl, rfl⟩
  simp [playAlarmSound, h]

/-- C8 witness: the muted sample configuration. -/
theorem muted_volume_skips_sink_witness :
    mutedConfig.alarmVolume = 0 ∧
    playAlarmSound mutedConfig none = (.silent, false) :=
  ⟨by decide,
   (muted_volume_skips_sink mutedConfig none SaveReminder.init 3 55 (by decide)).1⟩

/-- C9: no path below the backups destination ever passes the event filter:
its first component relative to the watched directory is the backups folder
name, not the quicksave name, so materializing a backup cannot feed a save
candidate back into the debouncer. -/
theorem backups_subtree_filtered_out (saves rest : List String) :
    isQuicksaveRelated saves ((saves ++ [backupFolderName]) ++ rest) = false := by
  rw [List.append_assoc]
  rw [show [backupFolderName] ++ rest = backupFolderName :: rest from rfl]
  rw [isQuicksaveRelated_append]
  decide

/-- C10: with a volume strictly between 0 and 10 and no configured sound
file, an alarm firing plays nothing and logs nothing — the beep is skipped
silently, exactly as when muted. -/
theorem low_volume_silent_no_warning (cfg : Config) (resolvedSound : Option String)
    (h1 : cfg.alarmSoundFile = "") (h2 : 0 < cfg.alarmVolume)
    (h3 : cfg.alarmVolume < 10) :
    playAlarmSound cfg resolvedSound = (.silent, false) := by
  have h0 : ¬cfg.alarmVolume = 0 := by omega
  simp [playAlarmSound, h0, h1, h3]

/-- C10 witness: the volume-5, no-sound-file sample configuration. -/
theorem low_volume_silent_no_warning_witness :
    lowVolumeConfig.alarmSoundFile = "" ∧ 0 < lowVolumeConfig.alarmVolume ∧
    lowVolumeConfig.alarmVolume < 10 ∧
    playAlarmSound lowVolumeConfig none = (.silent, false) :=
  ⟨by decide, by decide, by decide,
   low_volume_silent_no_warning lowVolumeConfig none (by decide) (by decide) (by decide)⟩

end NWN2
